import Mathlib

/-!
Verification of the snake game logic in `src/components/SnakeGame.tsx`.

The component keeps five pieces of React state: `gameState` (the phase),
`snake` (list of grid positions, head first), `food`, `direction` and
`score`.  We embed those as a `Game` record and each state-updating
function of the component as a pure function on `Game`:

* `generateFood` performs rejection sampling with `Math.random`; we model
  the random draws as a stream `Nat → Fin 20 × Fin 20` (each draw is
  `Math.floor(Math.random() * GRID_SIZE)` for x and y) and make the
  do-while loop fuelled: `none` means the loop has not yet terminated
  within the given fuel, so non-termination is `none` for every fuel.
* `gameLoop` is the body of the `setSnake` updater together with the
  `setGameState`/`setScore`/`setFood` calls it makes; it returns `none`
  exactly when the embedded `generateFood` loop did not terminate.
* `handleKeyPress` is the keydown listener.
* `resetGame` and `startGame` are the restart path.
-/

namespace SnakeGame

/-- Position: the `{ x, y }` pairs used for snake segments, food and the
direction vector.  JavaScript numbers here are always integers. -/
structure Position where
  x : Int
  y : Int
deriving DecidableEq, Repr

/-- GameState: `'menu' | 'playing' | 'paused' | 'gameOver'`. -/
inductive GameState where
  | menu
  | playing
  | paused
  | gameOver
deriving DecidableEq, Repr

/-- `const GRID_SIZE = 20`. -/
def GRID_SIZE : Int := 20

/-- `const INITIAL_SNAKE = [{ x: 10, y: 10 }]`. -/
def INITIAL_SNAKE : List Position := [⟨10, 10⟩]

/-- `const INITIAL_FOOD = { x: 15, y: 15 }`. -/
def INITIAL_FOOD : Position := ⟨15, 15⟩

/-- `const INITIAL_DIRECTION = { x: 0, y: -1 }`. -/
def INITIAL_DIRECTION : Position := ⟨0, -1⟩

/-- The five `useState` cells of the component. -/
structure Game where
  gameState : GameState
  snake : List Position
  food : Position
  direction : Position
  score : Nat
deriving DecidableEq, Repr

/-- One random draw `(Math.floor(Math.random() * GRID_SIZE),
Math.floor(Math.random() * GRID_SIZE))`; each component lies in
`[0, 20)`, hence `Fin 20`. -/
abbrev RandStream := Nat → Fin 20 × Fin 20

/-- The candidate food position built from the `n`-th random draw. -/
def proposal (rand : RandStream) (n : Nat) : Position :=
  ⟨((rand n).1.val : Int), ((rand n).2.val : Int)⟩

/-- `snakeBody.some(segment => segment.x === p.x && segment.y === p.y)`. -/
def occupies (snakeBody : List Position) (p : Position) : Bool :=
  snakeBody.any fun segment => segment.x == p.x && segment.y == p.y

/-- `generateFood`: the do-while rejection-sampling loop, consuming the
random stream from index `i` with the given fuel.  `none` means the loop
is still running after `fuel` iterations. -/
def generateFood (rand : RandStream) (snakeBody : List Position) :
    Nat → Nat → Option Position
  | _, 0 => none
  | i, fuel + 1 =>
    let newFood := proposal rand i
    if occupies snakeBody newFood then generateFood rand snakeBody (i + 1) fuel
    else some newFood

/-- `resetGame`: sets snake, food, direction and score back to their
initial constants; it does not touch `gameState`. -/
def resetGame (g : Game) : Game :=
  { g with snake := INITIAL_SNAKE, food := INITIAL_FOOD,
           direction := INITIAL_DIRECTION, score := 0 }

/-- `startGame`: `resetGame()` followed by `setGameState('playing')`. -/
def startGame (g : Game) : Game :=
  { resetGame g with gameState := GameState.playing }

/-- The tentative new head: `head = { ...newSnake[0] }; head.x +=
direction.x; head.y += direction.y`. -/
def newHead (g : Game) : Position :=
  let head := g.snake.headD ⟨0, 0⟩
  ⟨head.x + g.direction.x, head.y + g.direction.y⟩

/-- `gameLoop`: early return when not playing; wall check, self check,
unshift the head, then either eat (score + 10, new food) or pop the
tail.  `none` only when the food-generation loop did not terminate
within `fuel`. -/
def gameLoop (rand : RandStream) (fuel : Nat) (g : Game) : Option Game :=
  if g.gameState ≠ GameState.playing then some g
  else if (newHead g).x < 0 ∨ (newHead g).x ≥ GRID_SIZE ∨
      (newHead g).y < 0 ∨ (newHead g).y ≥ GRID_SIZE then
    some { g with gameState := GameState.gameOver }
  else if occupies g.snake (newHead g) then
    some { g with gameState := GameState.gameOver }
  else if (newHead g).x = g.food.x ∧ (newHead g).y = g.food.y then
    match generateFood rand (newHead g :: g.snake) 0 fuel with
    | none => none
    | some f =>
      some { g with snake := newHead g :: g.snake, food := f,
                    score := g.score + 10 }
  else
    some { g with snake := (newHead g :: g.snake).dropLast }

/-- `handleKeyPress`: the keydown listener.  Movement keys act only in
`playing` and only when the mapped vector is on the axis orthogonal to
the current direction; Space pauses from `playing` and resumes from
`paused`. -/
def handleKeyPress (key : String) (g : Game) : Game :=
  if g.gameState = GameState.playing then
    if key = "ArrowUp" ∨ key = "w" ∨ key = "W" then
      if g.direction.y = 0 then { g with direction := ⟨0, -1⟩ } else g
    else if key = "ArrowDown" ∨ key = "s" ∨ key = "S" then
      if g.direction.y = 0 then { g with direction := ⟨0, 1⟩ } else g
    else if key = "ArrowLeft" ∨ key = "a" ∨ key = "A" then
      if g.direction.x = 0 then { g with direction := ⟨-1, 0⟩ } else g
    else if key = "ArrowRight" ∨ key = "d" ∨ key = "D" then
      if g.direction.x = 0 then { g with direction := ⟨1, 0⟩ } else g
    else if key = " " then
      { g with gameState := GameState.paused }
    else g
  else if g.gameState = GameState.paused ∧ key = " " then
    { g with gameState := GameState.playing }
  else g

/-- The initial component state: phase `menu` and the initial constants. -/
def initState : Game :=
  { gameState := GameState.menu, snake := INITIAL_SNAKE, food := INITIAL_FOOD,
    direction := INITIAL_DIRECTION, score := 0 }

/-- A position is on the grid when both coordinates lie in
`[0, GRID_SIZE)`. -/
def inGrid (p : Position) : Prop :=
  0 ≤ p.x ∧ p.x < GRID_SIZE ∧ 0 ≤ p.y ∧ p.y < GRID_SIZE

instance (p : Position) : Decidable (inGrid p) := by
  unfold inGrid
  infer_instance

/-- The states the component can reach: the initial state, closed under
ticks (with any random stream and any fuel on which the tick
terminates), key events and the restart button. -/
inductive Reachable : Game → Prop where
  | init : Reachable initState
  | tick (rand : RandStream) (fuel : Nat) {g gNext : Game} :
      Reachable g → gameLoop rand fuel g = some gNext → Reachable gNext
  | key (k : String) {g : Game} : Reachable g → Reachable (handleKeyPress k g)
  | restart {g : Game} : Reachable g → Reachable (startGame g)

/-- A constant random stream: every draw is `(0, 0)`. -/
def wRand : RandStream := fun _ => (0, 0)

/-- A random stream whose first draw is `(0, 0)` and whose later draws
are `(1, 1)`. -/
def wRand2 : RandStream := fun n => if n = 0 then (0, 0) else (1, 1)

/-- All 400 grid cells. -/
def fullGrid : List Position :=
  (List.range 400).map fun n => ⟨((n % 20 : Nat) : Int), ((n / 20 : Nat) : Int)⟩

/-- A playing state whose head sits on the top edge moving up: the next
tick hits the wall. -/
def gWall : Game :=
  { gameState := GameState.playing, snake := [⟨0, 0⟩], food := INITIAL_FOOD,
    direction := ⟨0, -1⟩, score := 0 }

/-- A playing state about to bite its own tail segment. -/
def gSelf : Game :=
  { gameState := GameState.playing, snake := [⟨10, 10⟩, ⟨10, 9⟩],
    food := INITIAL_FOOD, direction := ⟨0, -1⟩, score := 0 }

/-- The eating scenario of the spec: snake `[(10,10)]`, food `(11,10)`,
direction `(1,0)`, score 0. -/
def gEat : Game :=
  { gameState := GameState.playing, snake := [⟨10, 10⟩], food := ⟨11, 10⟩,
    direction := ⟨1, 0⟩, score := 0 }

/-- The state one tick after `gEat` under the constant stream `wRand`:
the snake grew, the score is 10, the food moved to the first draw. -/
def gAte : Game :=
  { gameState := GameState.playing, snake := [⟨11, 10⟩, ⟨10, 10⟩],
    food := ⟨0, 0⟩, direction := ⟨1, 0⟩, score := 10 }

/-- A playing state at the initial board. -/
def gPlay : Game := { initState with gameState := GameState.playing }

/-- A paused state at the initial board. -/
def gPause : Game := { initState with gameState := GameState.paused }

/-- A game-over state at the initial board. -/
def gOver : Game := { initState with gameState := GameState.gameOver }

theorem Position.eq_iff {p q : Position} : p = q ↔ p.x = q.x ∧ p.y = q.y := by
  cases p
  cases q
  simp

theorem occupies_iff_mem (body : List Position) (p : Position) :
    occupies body p = true ↔ p ∈ body := by
  simp only [occupies, List.any_eq_true, Bool.and_eq_true, beq_iff_eq]
  constructor
  · rintro ⟨q, hq, hx, hy⟩
    have hqp : q = p := Position.eq_iff.mpr ⟨hx, hy⟩
    exact hqp ▸ hq
  · intro hp
    exact ⟨p, hp, rfl, rfl⟩

theorem proposal_inGrid (rand : RandStream) (n : Nat) :
    inGrid (proposal rand n) := by
  have hx := (rand n).1.isLt
  have hy := (rand n).2.isLt
  refine ⟨?_, ?_, ?_, ?_⟩ <;> simp only [proposal, GRID_SIZE] <;> omega

theorem inGrid_not_out {p : Position} (h : inGrid p) :
    ¬(p.x < 0 ∨ p.x ≥ GRID_SIZE ∨ p.y < 0 ∨ p.y ≥ GRID_SIZE) := by
  obtain ⟨h1, h2, h3, h4⟩ := h
  push_neg
  exact ⟨h1, h2, h3, h4⟩

theorem gameLoop_not_playing (rand : RandStream) (fuel : Nat) {g : Game}
    (h : g.gameState ≠ GameState.playing) :
    gameLoop rand fuel g = some g := by
  unfold gameLoop
  rw [if_pos h]

theorem gameLoop_wall (rand : RandStream) (fuel : Nat) {g : Game}
    (hplay : g.gameState = GameState.playing)
    (hout : (newHead g).x < 0 ∨ (newHead g).x ≥ GRID_SIZE ∨
      (newHead g).y < 0 ∨ (newHead g).y ≥ GRID_SIZE) :
    gameLoop rand fuel g = some { g with gameState := GameState.gameOver } := by
  unfold gameLoop
  rw [if_neg (by simp [hplay]), if_pos hout]

theorem gameLoop_self (rand : RandStream) (fuel : Nat) {g : Game}
    (hplay : g.gameState = GameState.playing)
    (hin : inGrid (newHead g))
    (hocc : occupies g.snake (newHead g) = true) :
    gameLoop rand fuel g = some { g with gameState := GameState.gameOver } := by
  unfold gameLoop
  rw [if_neg (by simp [hplay]), if_neg (inGrid_not_out hin), if_pos hocc]

theorem gameLoop_eat (rand : RandStream) (fuel : Nat) {g : Game}
    (hplay : g.gameState = GameState.playing)
    (hin : inGrid (newHead g))
    (hocc : occupies g.snake (newHead g) = false)
    (hfood : newHead g = g.food) :
    gameLoop rand fuel g =
      (generateFood rand (newHead g :: g.snake) 0 fuel).map fun f =>
        { g with snake := newHead g :: g.snake, food := f,
                 score := g.score + 10 } := by
  unfold gameLoop
  rw [if_neg (by simp [hplay]), if_neg (inGrid_not_out hin),
    if_neg (by simp [hocc]),
    if_pos ⟨congrArg Position.x hfood, congrArg Position.y hfood⟩]
  cases generateFood rand (newHead g :: g.snake) 0 fuel <;> rfl

theorem gameLoop_move (rand : RandStream) (fuel : Nat) {g : Game}
    (hplay : g.gameState = GameState.playing)
    (hin : inGrid (newHead g))
    (hocc : occupies g.snake (newHead g) = false)
    (hfood : newHead g ≠ g.food) :
    gameLoop rand fuel g =
      some { g with snake := (newHead g :: g.snake).dropLast } := by
  unfold gameLoop
  rw [if_neg (by simp [hplay]), if_neg (inGrid_not_out hin),
    if_neg (by simp [hocc]), if_neg ?_]
  intro hc
  exact hfood (Position.eq_iff.mpr hc)

/-- Case split on a terminating tick: it is a no-op (not playing), a
collision (game over, snake kept), an eating step or a plain move. -/
theorem gameLoop_cases (rand : RandStream) (fuel : Nat) {g gNext : Game}
    (h : gameLoop rand fuel g = some gNext) :
    (g.gameState ≠ GameState.playing ∧ gNext = g) ∨
    (g.gameState = GameState.playing ∧
      gNext = { g with gameState := GameState.gameOver }) ∨
    (g.gameState = GameState.playing ∧
      occupies g.snake (newHead g) = false ∧ newHead g = g.food ∧
      ∃ f, generateFood rand (newHead g :: g.snake) 0 fuel = some f ∧
        gNext = { g with snake := newHead g :: g.snake, food := f,
                         score := g.score + 10 }) ∨
    (g.gameState = GameState.playing ∧
      occupies g.snake (newHead g) = false ∧ newHead g ≠ g.food ∧
      gNext = { g with snake := (newHead g :: g.snake).dropLast }) := by
  by_cases hplay : g.gameState = GameState.playing
  · by_cases hout : (newHead g).x < 0 ∨ (newHead g).x ≥ GRID_SIZE ∨
        (newHead g).y < 0 ∨ (newHead g).y ≥ GRID_SIZE
    · rw [gameLoop_wall rand fuel hplay hout] at h
      exact Or.inr (Or.inl ⟨hplay, (Option.some_inj.mp h).symm⟩)
    · have hin : inGrid (newHead g) := by
        unfold inGrid
        push_neg at hout
        exact ⟨hout.1, hout.2.1, hout.2.2.1, hout.2.2.2⟩
      by_cases hocc : occupies g.snake (newHead g) = true
      · rw [gameLoop_self rand fuel hplay hin hocc] at h
        exact Or.inr (Or.inl ⟨hplay, (Option.some_inj.mp h).symm⟩)
      · rw [Bool.not_eq_true] at hocc
        by_cases hfood : newHead g = g.food
        · rw [gameLoop_eat rand fuel hplay hin hocc hfood] at h
          cases hgen : generateFood rand (newHead g :: g.snake) 0 fuel with
          | none => rw [hgen] at h; exact absurd h (by simp [Option.map])
          | some f =>
            rw [hgen] at h
            simp only [Option.map_some', Option.some_inj] at h
            exact Or.inr (Or.inr (Or.inl
              ⟨hplay, hocc, hfood, f, rfl, h.symm⟩))
        · rw [gameLoop_move rand fuel hplay hin hocc hfood] at h
          exact Or.inr (Or.inr (Or.inr
            ⟨hplay, hocc, hfood, (Option.some_inj.mp h).symm⟩))
  · rw [gameLoop_not_playing rand fuel hplay] at h
    exact Or.inl ⟨hplay, (Option.some_inj.mp h).symm⟩

/-- Any position the rejection-sampling loop returns was rejected by no
snake segment: it is free in the body passed to `generateFood`. -/
theorem generateFood_free (rand : RandStream) (body : List Position) :
    ∀ fuel i f, generateFood rand body i fuel = some f →
      occupies body f = false := by
  intro fuel
  induction fuel with
  | zero =>
    intro i f h
    simp [generateFood] at h
  | succ n ih =>
    intro i f h
    simp only [generateFood] at h
    by_cases hc : occupies body (proposal rand i) = true
    · rw [if_pos hc] at h
      exact ih (i + 1) f h
    · rw [Bool.not_eq_true] at hc
      rw [if_neg (by simp [hc])] at h
      exact (Option.some_inj.mp h) ▸ hc

/-- If the snake occupies every cell of the grid, the loop rejects every
draw: `generateFood` is `none` for every fuel, i.e. the do-while never
terminates. -/
theorem generateFood_none_of_full (rand : RandStream) (body : List Position)
    (hfull : ∀ p, inGrid p → occupies body p = true) :
    ∀ fuel i, generateFood rand body i fuel = none := by
  intro fuel
  induction fuel with
  | zero => intro i; rfl
  | succ n ih =>
    intro i
    simp only [generateFood]
    rw [if_pos (hfull _ (proposal_inGrid rand i))]
    exact ih (i + 1)

/-- If the first free cell the stream proposes (from index `i` on) is at
index `k`, then with enough fuel the loop returns exactly that
proposal. -/
theorem generateFood_first_free (rand : RandStream) (body : List Position)
    (k : Nat) (hfree : occupies body (proposal rand k) = false)
    (hocc : ∀ j, j < k → occupies body (proposal rand j) = true) :
    ∀ fuel i, i ≤ k → k - i < fuel →
      generateFood rand body i fuel = some (proposal rand k) := by
  intro fuel
  induction fuel with
  | zero =>
    intro i h1 h2
    omega
  | succ n ih =>
    intro i h1 h2
    simp only [generateFood]
    by_cases hik : i = k
    · subst hik
      rw [if_neg (by simp [hfree])]
    · rw [if_pos (hocc i (by omega))]
      exact ih (i + 1) (by omega) (by omega)

/-- A terminating tick from a duplicate-free, non-empty snake keeps the
snake duplicate-free and non-empty. -/
theorem gameLoop_preserves_inv (rand : RandStream) (fuel : Nat)
    {g gNext : Game} (hnd : g.snake.Nodup) (hne : g.snake ≠ [])
    (h : gameLoop rand fuel g = some gNext) :
    gNext.snake.Nodup ∧ gNext.snake ≠ [] := by
  rcases gameLoop_cases rand fuel h with
    ⟨_, hEq⟩ | ⟨_, hEq⟩ | ⟨_, hocc, _, f, _, hEq⟩ | ⟨_, hocc, _, hEq⟩
  · exact hEq ▸ ⟨hnd, hne⟩
  · exact hEq ▸ ⟨hnd, hne⟩
  · subst hEq
    have hmem : newHead g ∉ g.snake := by
      rw [← occupies_iff_mem g.snake (newHead g), hocc]
      simp
    exact ⟨List.nodup_cons.mpr ⟨hmem, hnd⟩, by simp⟩
  · subst hEq
    have hmem : newHead g ∉ g.snake := by
      rw [← occupies_iff_mem g.snake (newHead g), hocc]
      simp
    have hnd2 : (newHead g :: g.snake).Nodup := List.nodup_cons.mpr ⟨hmem, hnd⟩
    refine ⟨(List.dropLast_sublist _).nodup hnd2, ?_⟩
    show (newHead g :: g.snake).dropLast ≠ []
    have hpos : 0 < g.snake.length := List.length_pos.mpr hne
    intro hnil
    have hlen := congrArg List.length hnil
    rw [List.length_dropLast, List.length_cons, List.length_nil] at hlen
    omega

/-- A terminating tick that ends in `gameOver` did not touch the snake. -/
theorem gameLoop_gameOver_frame (rand : RandStream) (fuel : Nat)
    {g gNext : Game} (h : gameLoop rand fuel g = some gNext)
    (hgo : gNext.gameState = GameState.gameOver) :
    gNext.snake = g.snake := by
  rcases gameLoop_cases rand fuel h with
    ⟨_, hEq⟩ | ⟨_, hEq⟩ | ⟨hplay, _, _, f, _, hEq⟩ | ⟨hplay, _, _, hEq⟩
  · rw [hEq]
  · rw [hEq]
  · subst hEq
    dsimp only at hgo
    rw [hplay] at hgo
    exact absurd hgo (by decide)
  · subst hEq
    dsimp only at hgo
    rw [hplay] at hgo
    exact absurd hgo (by decide)

/-- A key event never changes the snake body. -/
theorem handleKeyPress_snake (key : String) (g : Game) :
    (handleKeyPress key g).snake = g.snake := by
  unfold handleKeyPress
  repeat' first
  | rfl
  | split

/-- A key event that happens outside `playing`, and is not Space while
paused, changes nothing at all. -/
theorem handleKeyPress_frame {key : String} {g : Game}
    (h1 : g.gameState ≠ GameState.playing)
    (h2 : ¬(g.gameState = GameState.paused ∧ key = " ")) :
    handleKeyPress key g = g := by
  unfold handleKeyPress
  rw [if_neg h1, if_neg h2]

/-- Exhaustive description of what a key event does to the direction:
either it leaves it unchanged, or the game is playing and the key is a
movement key whose guard (the orthogonal-axis test) passed. -/
theorem handleKeyPress_direction_cases (key : String) (g : Game) :
    (handleKeyPress key g).direction = g.direction ∨
    (g.gameState = GameState.playing ∧
      (((key = "ArrowUp" ∨ key = "w" ∨ key = "W") ∧ g.direction.y = 0 ∧
          (handleKeyPress key g).direction = ⟨0, -1⟩) ∨
        ((key = "ArrowDown" ∨ key = "s" ∨ key = "S") ∧ g.direction.y = 0 ∧
          (handleKeyPress key g).direction = ⟨0, 1⟩) ∨
        ((key = "ArrowLeft" ∨ key = "a" ∨ key = "A") ∧ g.direction.x = 0 ∧
          (handleKeyPress key g).direction = ⟨-1, 0⟩) ∨
        ((key = "ArrowRight" ∨ key = "d" ∨ key = "D") ∧ g.direction.x = 0 ∧
          (handleKeyPress key g).direction = ⟨1, 0⟩))) := by
  unfold handleKeyPress
  split_ifs <;> simp_all

/-- Every reachable component state has a duplicate-free, non-empty
snake. -/
theorem reachable_inv {g : Game} (h : Reachable g) :
    g.snake.Nodup ∧ g.snake ≠ [] := by
  induction h with
  | init => exact ⟨List.nodup_singleton _, by simp [initState, INITIAL_SNAKE]⟩
  | tick rand fuel hr hstep ih =>
    exact gameLoop_preserves_inv rand fuel ih.1 ih.2 hstep
  | key k hr ih =>
    rw [handleKeyPress_snake]
    exact ih
  | restart hr ih =>
    exact ⟨List.nodup_singleton _, by simp [startGame, resetGame, INITIAL_SNAKE]⟩

/-- Every grid cell is occupied by the list of all grid cells. -/
theorem fullGrid_occupies (p : Position) (h : inGrid p) :
    occupies fullGrid p = true := by
  obtain ⟨h1, h2, h3, h4⟩ := h
  simp only [GRID_SIZE] at h2 h4
  rw [occupies_iff_mem]
  simp only [fullGrid, List.mem_map, List.mem_range]
  refine ⟨p.y.toNat * 20 + p.x.toNat, by omega, ?_⟩
  rw [Position.eq_iff]
  constructor <;> dsimp <;> omega

/-- C1: every reachable game state has a snake that is a non-empty list
of pairwise-distinct positions; a terminating tick from such a state
again yields a duplicate-free non-empty snake and, whenever it ends in
gameOver, leaves the snake unchanged; restarting (startGame, and the
underlying resetGame) yields the duplicate-free singleton initial
snake. -/
theorem C1_snake_invariant {g : Game} (h : Reachable g) :
    (g.snake.Nodup ∧ g.snake ≠ []) ∧
    (∀ (rand : RandStream) (fuel : Nat) (gNext : Game),
      gameLoop rand fuel g = some gNext →
        (gNext.snake.Nodup ∧ gNext.snake ≠ []) ∧
        (gNext.gameState = GameState.gameOver → gNext.snake = g.snake)) ∧
    ((startGame g).snake.Nodup ∧ (startGame g).snake ≠ []) ∧
    ((resetGame g).snake.Nodup ∧ (resetGame g).snake ≠ []) := by
  have hinv := reachable_inv h
  refine ⟨hinv, ?_, ?_, ?_⟩
  · intro rand fuel gNext hstep
    exact ⟨gameLoop_preserves_inv rand fuel hinv.1 hinv.2 hstep,
      gameLoop_gameOver_frame rand fuel hstep⟩
  · exact ⟨List.nodup_singleton _, by simp [startGame, resetGame, INITIAL_SNAKE]⟩
  · exact ⟨List.nodup_singleton _, by simp [resetGame, INITIAL_SNAKE]⟩

/-- C1 witness: the invariant holds at the initial state. -/
theorem C1_witness : initState.snake.Nodup ∧ initState.snake ≠ [] :=
  (C1_snake_invariant Reachable.init).1

/-- C2: while playing, if the new head (old head plus direction) leaves
`[0, GRID_SIZE)` on either axis, the tick goes to gameOver with snake,
food and score all unchanged. -/
theorem C2_wall_collision (rand : RandStream) (fuel : Nat) (g : Game)
    (hplay : g.gameState = GameState.playing)
    (hout : (newHead g).x < 0 ∨ (newHead g).x ≥ GRID_SIZE ∨
      (newHead g).y < 0 ∨ (newHead g).y ≥ GRID_SIZE) :
    ∃ gNext, gameLoop rand fuel g = some gNext ∧
      gNext.gameState = GameState.gameOver ∧ gNext.snake = g.snake ∧
      gNext.food = g.food ∧ gNext.score = g.score :=
  ⟨{ g with gameState := GameState.gameOver },
    gameLoop_wall rand fuel hplay hout, rfl, rfl, rfl, rfl⟩

/-- C2 witness: moving up from `(0, 0)` leaves the grid and only the
phase changes. -/
theorem C2_witness :
    ∃ gNext, gameLoop wRand 1 gWall = some gNext ∧
      gNext.gameState = GameState.gameOver ∧ gNext.snake = gWall.snake ∧
      gNext.food = gWall.food ∧ gNext.score = gWall.score :=
  C2_wall_collision wRand 1 gWall rfl (by decide)

/-- C3: while playing, if the new head stays on the grid but coincides
with any existing segment of the current snake (the tail included, since
the check runs before the tail is popped), the tick goes to gameOver
with the snake unchanged. -/
theorem C3_self_collision (rand : RandStream) (fuel : Nat) (g : Game)
    (hplay : g.gameState = GameState.playing)
    (hin : inGrid (newHead g))
    (hself : occupies g.snake (newHead g) = true) :
    ∃ gNext, gameLoop rand fuel g = some gNext ∧
      gNext.gameState = GameState.gameOver ∧ gNext.snake = g.snake :=
  ⟨{ g with gameState := GameState.gameOver },
    gameLoop_self rand fuel hplay hin hself, rfl, rfl⟩

/-- C3 witness: moving up onto the tail segment of a length-2 snake ends
the game and keeps the snake. -/
theorem C3_witness :
    ∃ gNext, gameLoop wRand 1 gSelf = some gNext ∧
      gNext.gameState = GameState.gameOver ∧ gNext.snake = gSelf.snake :=
  C3_self_collision wRand 1 gSelf rfl (by decide) (by decide)

/-- C4: from snake `[(10,10)]`, food `(11,10)`, direction `(1,0)` and
score 0, any terminating tick yields snake `[(11,10),(10,10)]` (head
prepended, tail kept), score 10, and food on neither of those two
cells. -/
theorem C4_eating_step (rand : RandStream) (fuel : Nat) (gNext : Game)
    (h : gameLoop rand fuel gEat = some gNext) :
    gNext.snake = [⟨11, 10⟩, ⟨10, 10⟩] ∧ gNext.score = 10 ∧
      gNext.food ≠ (⟨11, 10⟩ : Position) ∧
      gNext.food ≠ (⟨10, 10⟩ : Position) := by
  rw [gameLoop_eat rand fuel rfl (by decide) (by decide) (by decide)] at h
  cases hgen : generateFood rand (newHead gEat :: gEat.snake) 0 fuel with
  | none =>
    rw [hgen] at h
    exact absurd h (by simp [Option.map])
  | some f =>
    rw [hgen] at h
    simp only [Option.map_some', Option.some_inj] at h
    subst h
    have hfree := generateFood_free rand (newHead gEat :: gEat.snake) fuel 0 f hgen
    have hmem : f ∉ [(⟨11, 10⟩ : Position), ⟨10, 10⟩] := by
      rw [show [(⟨11, 10⟩ : Position), ⟨10, 10⟩] = newHead gEat :: gEat.snake
        from rfl, ← occupies_iff_mem, hfree]
      simp
    simp only [List.mem_cons, List.not_mem_nil, or_false, not_or] at hmem
    exact ⟨rfl, rfl, hmem.1, hmem.2⟩

/-- C4 witness: one tick of the scenario under the constant stream. -/
theorem C4_witness :
    gAte.snake = [⟨11, 10⟩, ⟨10, 10⟩] ∧ gAte.score = 10 ∧
      gAte.food ≠ (⟨11, 10⟩ : Position) ∧
      gAte.food ≠ (⟨10, 10⟩ : Position) :=
  C4_eating_step wRand 1 gAte (by decide)

/-- C5: whatever snake body is handed to `generateFood`, a returned food
position lies on none of its segments; at an eating tick the body handed
over is the grown snake (new head included), so the new food collides
with no segment of the resulting snake. -/
theorem C5_food_placement (rand : RandStream) (fuel : Nat) :
    (∀ (body : List Position) (i : Nat) (f : Position),
      generateFood rand body i fuel = some f → ∀ p ∈ body, p ≠ f) ∧
    (∀ g gNext : Game, g.gameState = GameState.playing →
      inGrid (newHead g) → occupies g.snake (newHead g) = false →
      newHead g = g.food → gameLoop rand fuel g = some gNext →
      gNext.snake = newHead g :: g.snake ∧
        ∀ p ∈ gNext.snake, p ≠ gNext.food) := by
  constructor
  · intro body i f h p hp hpf
    have hfree := generateFood_free rand body fuel i f h
    rw [hpf] at hp
    rw [← occupies_iff_mem, hfree] at hp
    exact Bool.false_ne_true hp
  · intro g gNext hplay hin hocc hfood hstep
    rw [gameLoop_eat rand fuel hplay hin hocc hfood] at hstep
    cases hgen : generateFood rand (newHead g :: g.snake) 0 fuel with
    | none =>
      rw [hgen] at hstep
      exact absurd hstep (by simp [Option.map])
    | some f =>
      rw [hgen] at hstep
      simp only [Option.map_some', Option.some_inj] at hstep
      subst hstep
      have hfree := generateFood_free rand (newHead g :: g.snake) fuel 0 f hgen
      refine ⟨rfl, ?_⟩
      intro p hp hpf
      change p ∈ newHead g :: g.snake at hp
      change p = f at hpf
      rw [hpf] at hp
      rw [← occupies_iff_mem, hfree] at hp
      exact Bool.false_ne_true hp

/-- C5 witness: a concrete rejection-sampling run avoids the body, and a
concrete eating tick leaves the food off the grown snake. -/
theorem C5_witness :
    (∀ p ∈ [(⟨0, 0⟩ : Position)], p ≠ (⟨1, 1⟩ : Position)) ∧
    (gAte.snake = newHead gEat :: gEat.snake ∧
      ∀ p ∈ gAte.snake, p ≠ gAte.food) :=
  ⟨(C5_food_placement wRand2 2).1 [⟨0, 0⟩] 0 ⟨1, 1⟩ (by decide),
    (C5_food_placement wRand 1).2 gEat gAte rfl (by decide) (by decide)
      (by decide) (by decide)⟩

/-- C6: a movement key whose mapped vector shares the current
direction's axis (vertical keys while direction.y is non-zero,
horizontal keys while direction.x is non-zero) is rejected, leaving the
direction unchanged; moreover a key event either leaves the direction
unchanged or sets it to something other than the exact reverse of the
current direction. -/
theorem C6_direction_rejection (g : Game) (key : String) :
    ((key = "ArrowUp" ∨ key = "w" ∨ key = "W" ∨
        key = "ArrowDown" ∨ key = "s" ∨ key = "S") →
      g.direction.y ≠ 0 → (handleKeyPress key g).direction = g.direction) ∧
    ((key = "ArrowLeft" ∨ key = "a" ∨ key = "A" ∨
        key = "ArrowRight" ∨ key = "d" ∨ key = "D") →
      g.direction.x ≠ 0 → (handleKeyPress key g).direction = g.direction) ∧
    ((handleKeyPress key g).direction = g.direction ∨
      (handleKeyPress key g).direction ≠
        (⟨-g.direction.x, -g.direction.y⟩ : Position)) := by
  refine ⟨?_, ?_, ?_⟩
  · intro hk hy
    rcases handleKeyPress_direction_cases key g with hsame | ⟨hplay, hcase⟩
    · exact hsame
    · exfalso
      rcases hk with rfl | rfl | rfl | rfl | rfl | rfl <;>
        rcases hcase with ⟨hk2, hd, _⟩ | ⟨hk2, hd, _⟩ | ⟨hk2, hd, _⟩ | ⟨hk2, hd, _⟩ <;>
        first
        | exact hy hd
        | (rcases hk2 with h | h | h <;> exact absurd h (by decide))
  · intro hk hx
    rcases handleKeyPress_direction_cases key g with hsame | ⟨hplay, hcase⟩
    · exact hsame
    · exfalso
      rcases hk with rfl | rfl | rfl | rfl | rfl | rfl <;>
        rcases hcase with ⟨hk2, hd, _⟩ | ⟨hk2, hd, _⟩ | ⟨hk2, hd, _⟩ | ⟨hk2, hd, _⟩ <;>
        first
        | exact hx hd
        | (rcases hk2 with h | h | h <;> exact absurd h (by decide))
  · rcases handleKeyPress_direction_cases key g with hsame | ⟨hplay, hcase⟩
    · exact Or.inl hsame
    · right
      rcases hcase with ⟨_, hd, hdir⟩ | ⟨_, hd, hdir⟩ | ⟨_, hd, hdir⟩ | ⟨_, hd, hdir⟩ <;>
        (rw [hdir]
         intro hcontra
         obtain ⟨h1, h2⟩ := Position.eq_iff.mp hcontra
         dsimp at h1 h2
         omega)

/-- C6 witness: with direction `(1,0)`, pressing ArrowLeft (mapped to
`(-1,0)`, same axis) changes nothing. -/
theorem C6_witness :
    (handleKeyPress "ArrowLeft"
      { gPlay with direction := ⟨1, 0⟩ }).direction =
      ({ gPlay with direction := ⟨1, 0⟩ } : Game).direction :=
  (C6_direction_rejection { gPlay with direction := ⟨1, 0⟩ } "ArrowLeft").2.1
    (Or.inl rfl) (by decide)

/-- C7: Space while playing pauses, Space while paused resumes, and in
any phase other than playing and paused a key event leaves the direction
unchanged. -/
theorem C7_space_toggle (g : Game) :
    (g.gameState = GameState.playing →
      handleKeyPress " " g = { g with gameState := GameState.paused }) ∧
    (g.gameState = GameState.paused →
      handleKeyPress " " g = { g with gameState := GameState.playing }) ∧
    (∀ key : String, g.gameState ≠ GameState.playing →
      g.gameState ≠ GameState.paused →
      (handleKeyPress key g).direction = g.direction) := by
  refine ⟨?_, ?_, ?_⟩
  · intro hplay
    unfold handleKeyPress
    rw [if_pos hplay, if_neg (by decide), if_neg (by decide),
      if_neg (by decide), if_neg (by decide), if_pos rfl]
  · intro hpause
    unfold handleKeyPress
    rw [if_neg (by simp [hpause]), if_pos ⟨hpause, rfl⟩]
  · intro key h1 h2
    rw [handleKeyPress_frame h1 (fun hc => h2 hc.1)]

/-- C7 witness: Space toggles the initial board between playing and
paused, and the w key in the menu leaves the direction alone. -/
theorem C7_witness :
    handleKeyPress " " gPlay = { gPlay with gameState := GameState.paused } ∧
    handleKeyPress " " gPause = { gPause with gameState := GameState.playing } ∧
    (handleKeyPress "w" initState).direction = initState.direction :=
  ⟨(C7_space_toggle gPlay).1 rfl, (C7_space_toggle gPause).2.1 rfl,
    (C7_space_toggle initState).2.2 "w" (by decide) (by decide)⟩

/-- C8: startGame maps every state (in particular every terminal state)
to the one fixed restart state: snake `[(10,10)]`, food `(15,15)`,
direction `(0,-1)`, score 0, phase playing; applying it twice gives the
same state as applying it once. -/
theorem C8_restart (g : Game) :
    startGame g = { gameState := GameState.playing,
                    snake := INITIAL_SNAKE,
                    food := INITIAL_FOOD,
                    direction := INITIAL_DIRECTION,
                    score := 0 } ∧
    startGame (startGame g) = startGame g :=
  ⟨rfl, rfl⟩

/-- C9: the rejection-sampling loop, with the snake covering the whole
grid, rejects every draw and never terminates (is `none` for every
fuel); with a free cell first proposed at index `k` of the stream, any
fuel beyond `k` makes it terminate with exactly that first free
proposal. -/
theorem C9_generateFood_termination (rand : RandStream) (body : List Position) :
    ((∀ p, inGrid p → occupies body p = true) →
      ∀ fuel i, generateFood rand body i fuel = none) ∧
    (∀ k, occupies body (proposal rand k) = false →
      (∀ j, j < k → occupies body (proposal rand j) = true) →
      ∀ fuel, k < fuel → generateFood rand body 0 fuel = some (proposal rand k)) := by
  constructor
  · intro hfull
    exact generateFood_none_of_full rand body hfull
  · intro k hfree hocc fuel hk
    exact generateFood_first_free rand body k hfree hocc fuel 0 (Nat.zero_le k)
      (by omega)

/-- C9 witness: on the full grid the loop yields nothing for a concrete
fuel; on a one-cell body whose first free proposal is draw 1, fuel 2
returns exactly that proposal. -/
theorem C9_witness :
    generateFood wRand fullGrid 0 5 = none ∧
    generateFood wRand2 [(⟨0, 0⟩ : Position)] 0 2 = some (proposal wRand2 1) :=
  ⟨(C9_generateFood_termination wRand fullGrid).1 fullGrid_occupies 5 0,
    (C9_generateFood_termination wRand2 [⟨0, 0⟩]).2 1 (by decide)
      (fun j hj => by
        have hj0 : j = 0 := by omega
        subst hj0
        decide) 2 (by omega)⟩

/-- C10: a key event outside phase playing that is not Space-while-
paused changes nothing at all: gameOver and menu are left only through
the restart button, never through the keyboard. -/
theorem C10_keyboard_noop (g : Game) (key : String)
    (h1 : g.gameState ≠ GameState.playing)
    (h2 : ¬(g.gameState = GameState.paused ∧ key = " ")) :
    handleKeyPress key g = g :=
  handleKeyPress_frame h1 h2

/-- C10 witness: Space in the gameOver state changes nothing. -/
theorem C10_witness : handleKeyPress " " gOver = gOver :=
  C10_keyboard_noop gOver " " (by decide) (by decide)
